import Mathlib

/-!
Shallow embedding of `testApp.py` (MetaLangSAM): a single-page Streamlit app
that downloads a satellite tile for a bounding box, runs SAM / LangSAM
segmentation over it, shows the results, and exports raster / image /
shapefile-archive files.

Modelling conventions:
* the file system is a `Finset String` of paths that currently exist;
* every external library call (leafmap download, SamGeo / LangSAM
  construction and inference, matplotlib rendering/saving, `os.remove`) is
  driven by an oracle `Env` that says whether the call succeeds and how much
  wall-clock time it consumes; a failing call raises a `PyError`;
* the Streamlit session state (`st.session_state`) is the `SessionState`
  structure; the run-button handler threads an `AppState` and, as in the
  source, only assigns the session-state fields after the whole pipeline of
  the chosen branch has finished;
* model objects (`SamGeo(...)`, `LangSAM()`) are `ModelHandle`s carrying an
  allocation token `id`, so distinct instantiations are distinguishable.
-/

set_option autoImplicit false

namespace MetaLangSAM

/-- `tiff_path = "satellite.tif"` (testApp.py line 55). -/
def tiff_path : String := "satellite.tif"

/-- `mask_path = "masks.tif"` (testApp.py line 56). -/
def mask_path : String := "masks.tif"

/-- `vector_path = "masks.shp"` (testApp.py line 57). -/
def vector_path : String := "masks.shp"

/-- `vis_path = "visualization.png"` (testApp.py lines 92 and 131). -/
def vis_path : String := "visualization.png"

/-- `zip_path = "segmentation_shp.zip"` (testApp.py line 239). -/
def zip_path : String := "segmentation_shp.zip"

/-- Exceptions that the Python runtime can surface from the calls the app
makes.  `keyError` is a dict lookup on a missing key, `fileNotFound` an
`open`/`zipfile.write` on a missing file; the rest stand for failures of the
external collaborators. -/
inductive PyError
  | osError
  | downloadError
  | modelInitError
  | segmentError
  | renderError
  | saveError
  | keyError (key : String)
  | fileNotFound (path : String)
deriving DecidableEq

/-- Constructor arguments of a `SamGeo(...)` instance: either called with no
arguments (`SamGeo()`, line 190) or with the explicit configuration of
line 72. -/
inductive SamArgs
  | defaults
  | explicit (model_type : String) (points_per_side : Nat)
      (pred_iou_thresh : ℚ) (stability_score_thresh : ℚ)
deriving DecidableEq

/-- Which external model class an object is an instance of. -/
inductive ModelKind
  | samGeo (args : SamArgs)
  | langSam
deriving DecidableEq

/-- A live model object.  `id` is an allocation token: each constructor call
consumes a fresh token, so two separately constructed instances are never
equal. -/
structure ModelHandle where
  id : Nat
  kind : ModelKind
deriving DecidableEq

/-- The dict stored into `st.session_state.results` (lines 99-106 and
138-147).  The keys `'text_prompt'` and `'sam'`, present only in the
text-prompt branch, are `Option` fields with `none` meaning "key absent". -/
structure ResultsRecord where
  tiff_path : String
  mask_path : String
  vector_path : String
  vis_path : String
  process_type : String
  duration : Int
  text_prompt : Option String
  sam : Option ModelHandle
deriving DecidableEq

/-- `st.session_state`: the two fields initialised at lines 16-19. -/
structure SessionState where
  results : Option ResultsRecord
  map_visible : Bool
deriving DecidableEq

/-- Session-state initialisation on first load (lines 16-19). -/
def initSession : SessionState :=
  { results := none, map_visible := true }

/-- The world the pipeline acts on besides the session state: the file
system, the allocation counter for model objects, the wall clock, and the
list of model objects constructed so far. -/
structure PipeState where
  fs : Finset String
  ctr : Nat
  clock : Int
  created : List ModelHandle
deriving DecidableEq

/-- Full application state threaded through the run-button handler. -/
structure AppState where
  sess : SessionState
  pipe : PipeState
  rerun : Bool
deriving DecidableEq

/-- Oracle describing the behaviour of each external call of one run: whether
it succeeds, and how much wall-clock time it takes. -/
structure Env where
  removeOk : String → Bool
  downloadOk : Bool
  samGeoInitOk : Bool
  langSamInitOk : Bool
  generateOk : Bool
  predictOk : Bool
  renderOk : Bool
  saveOk : Bool
  downloadTime : Int
  samGeoInitTime : Int
  langSamInitTime : Int
  generateTime : Int
  predictTime : Int
  renderTime : Int
  saveTime : Int

/-- Outcome of one pipeline step: either a value with the updated world, or a
raised exception together with the world at the moment of the raise. -/
inductive StepOut (α : Type)
  | ok (a : α) (st : PipeState)
  | raised (e : PyError) (st : PipeState)
deriving DecidableEq

/-- Sequencing of pipeline steps: a raised exception short-circuits. -/
def StepOut.bind {α β : Type} : StepOut α → (α → PipeState → StepOut β) → StepOut β
  | .ok a st, f => f a st
  | .raised e st, _ => .raised e st

/-- The world an outcome left behind, whether or not an exception was
raised. -/
def StepOut.state {α : Type} : StepOut α → PipeState
  | .ok _ st => st
  | .raised _ st => st

/-- `if os.path.exists(file): os.remove(file)` (line 61) for one path.  A
missing file is skipped; `os.remove` on an existing file succeeds or raises
`OSError` as the oracle dictates. -/
def removeStep (env : Env) (p : String) (st : PipeState) : StepOut Unit :=
  if p ∈ st.fs then
    if env.removeOk p then .ok () { st with fs := st.fs.erase p }
    else .raised .osError st
  else .ok () st

/-- `for file in [tiff_path, mask_path, vector_path]: ...` (lines 60-61),
unrolled over the literal three-element list. -/
def cleanupStep (env : Env) (st : PipeState) : StepOut Unit :=
  (removeStep env tiff_path st).bind fun _ st1 =>
  (removeStep env mask_path st1).bind fun _ st2 =>
  removeStep env vector_path st2

/-- `leafmap.map_tiles_to_geotiff(output=tiff_path, bbox=bbox, zoom=18,
source="Satellite", overwrite=True)` (lines 64-66).  On success the tile file
exists at `tiff_path` (overwriting any previous file). -/
def downloadStep (env : Env) (_bbox : List ℚ) (st : PipeState) : StepOut Unit :=
  if env.downloadOk then
    .ok () { st with fs := insert tiff_path st.fs,
                     clock := st.clock + env.downloadTime }
  else .raised .downloadError st

/-- `sam = SamGeo(model_type="vit_h", sam_kwargs={...})` (lines 72-79):
constructs a fresh model object with the explicit configuration. -/
def samGeoInitStep (env : Env) (st : PipeState) : StepOut ModelHandle :=
  if env.samGeoInitOk then
    let h : ModelHandle :=
      { id := st.ctr,
        kind := .samGeo (.explicit "vit_h" 32 (86/100) (92/100)) }
    .ok h { st with ctr := st.ctr + 1,
                    clock := st.clock + env.samGeoInitTime,
                    created := st.created ++ [h] }
  else .raised .modelInitError st

/-- `sam = LangSAM()` (line 112): constructs a fresh text-prompt model
object. -/
def langSamInitStep (env : Env) (st : PipeState) : StepOut ModelHandle :=
  if env.langSamInitOk then
    let h : ModelHandle := { id := st.ctr, kind := .langSam }
    .ok h { st with ctr := st.ctr + 1,
                    clock := st.clock + env.langSamInitTime,
                    created := st.created ++ [h] }
  else .raised .modelInitError st

/-- `sam.generate(tiff_path, output=mask_path, foreground=True)` (line 80):
on success the mask file exists. -/
def generateStep (env : Env) (st : PipeState) : StepOut Unit :=
  if env.generateOk then
    .ok () { st with fs := insert mask_path st.fs,
                     clock := st.clock + env.generateTime }
  else .raised .segmentError st

/-- `sam.predict(image=tiff_path, text_prompt=..., box_threshold=...,
text_threshold=..., output=mask_path)` (lines 113-119). -/
def predictStep (env : Env) (_text_prompt : String) (_box_threshold _text_threshold : ℚ)
    (st : PipeState) : StepOut Unit :=
  if env.predictOk then
    .ok () { st with fs := insert mask_path st.fs,
                     clock := st.clock + env.predictTime }
  else .raised .segmentError st

/-- `plt.subplots` plus `sam.show_anns(cmap="Greens", box_color="red",
title=..., blend=True, ax=ax)` (lines 83-90 / 122-129). -/
def showAnnsStep (env : Env) (_title : String) (st : PipeState) : StepOut Unit :=
  if env.renderOk then
    .ok () { st with clock := st.clock + env.renderTime }
  else .raised .renderError st

/-- `plt.savefig(vis_path, ...)` (line 93 / 132): on success the
visualization image exists.  `plt.close()` has no modelled effect. -/
def savefigStep (env : Env) (st : PipeState) : StepOut Unit :=
  if env.saveOk then
    .ok () { st with fs := insert vis_path st.fs,
                     clock := st.clock + env.saveTime }
  else .raised .saveError st

/-- The automatic branch (lines 68-106, without the session-state write):
`start_time = time.time()`, model construction, `generate`, visualization
rendering and saving, `duration = time.time() - start_time`, and the value
of the results dict of lines 99-106. -/
def autoBranch (env : Env) (process_type : String) (st : PipeState) :
    StepOut ResultsRecord :=
  let start_time := st.clock
  (samGeoInitStep env st).bind fun _sam st1 =>
  (generateStep env st1).bind fun _ st2 =>
  (showAnnsStep env "Automatic Segmentation" st2).bind fun _ st3 =>
  (savefigStep env st3).bind fun _ st4 =>
  let duration := st4.clock - start_time
  .ok { tiff_path := tiff_path, mask_path := mask_path,
        vector_path := vector_path, vis_path := vis_path,
        process_type := process_type, duration := duration,
        text_prompt := none, sam := none } st4

/-- The text-prompt branch (lines 108-147, without the session-state write):
`start_time = time.time()`, `LangSAM()`, `predict`, visualization rendering
and saving, and the value of the results dict of lines 138-147, which also
stores the prompt and the live model handle. -/
def textBranch (env : Env) (process_type text_prompt : String)
    (box_threshold text_threshold : ℚ) (st : PipeState) : StepOut ResultsRecord :=
  let start_time := st.clock
  (langSamInitStep env st).bind fun sam st1 =>
  (predictStep env text_prompt box_threshold text_threshold st1).bind fun _ st2 =>
  (showAnnsStep env ("Segmentation of " ++ text_prompt) st2).bind fun _ st3 =>
  (savefigStep env st3).bind fun _ st4 =>
  let duration := st4.clock - start_time
  .ok { tiff_path := tiff_path, mask_path := mask_path,
        vector_path := vector_path, vis_path := vis_path,
        process_type := process_type, duration := duration,
        text_prompt := some text_prompt, sam := some sam } st4

/-- The whole pipeline of the run-button handler up to, but not including,
the session-state write (lines 54-147): cleanup, tile download, then the
branch chosen by `process_type == "Automatische Segmentierung"` (line 68). -/
def pipelineRun (env : Env) (process_type text_prompt : String)
    (box_threshold text_threshold : ℚ) (bbox : List ℚ) (st : PipeState) :
    StepOut ResultsRecord :=
  (cleanupStep env st).bind fun _ st1 =>
  (downloadStep env bbox st1).bind fun _ st2 =>
  if process_type == "Automatische Segmentierung" then
    autoBranch env process_type st2
  else
    textBranch env process_type text_prompt box_threshold text_threshold st2

/-- The `if st.button("Starte Segmentierung", ...)` handler (lines 53-151).
The source assigns `st.session_state.results` (line 99 / 138),
`st.session_state.map_visible = False` (line 150) and calls `st.rerun()`
(line 151) only after every pipeline step succeeded; an exception anywhere
in the pipeline propagates out of the handler with the session state still
holding its previous value. -/
def runHandler (env : Env) (process_type text_prompt : String)
    (box_threshold text_threshold : ℚ) (bbox : List ℚ) (a : AppState) :
    Except PyError Unit × AppState :=
  match pipelineRun env process_type text_prompt box_threshold text_threshold bbox a.pipe with
  | .raised e st => (.error e, { a with pipe := st })
  | .ok r st =>
      (.ok (), { sess := { results := some r, map_visible := false },
                 pipe := st, rerun := true })

/-- The reset-button handler (lines 249-252): clear `results`, restore
`map_visible = True`, and request a rerun. -/
def resetHandler (s : SessionState) : SessionState × Bool :=
  ({ s with results := none, map_visible := true }, true)

/-- Python dict access `d[k]` on a key modelled as an `Option` field:
a missing key raises `KeyError`. -/
def dictGet {α : Type} (v : Option α) (key : String) : Except PyError α :=
  match v with
  | some a => .ok a
  | none => .error (.keyError key)

/-- Index of the last occurrence of a character in a list. -/
def lastIdxOf (c : Char) : List Char → Option Nat
  | [] => none
  | x :: xs =>
    match lastIdxOf c xs with
    | some i => some (i + 1)
    | none => if x == c then some 0 else none

/-- `os.path.basename`: the substring after the last `/`. -/
def basename (p : String) : String :=
  match lastIdxOf '/' p.toList with
  | some i => String.mk (p.toList.drop (i + 1))
  | none => p

/-- The root part of `os.path.splitext`: everything before the extension.
The extension starts at the last dot of the final path component provided a
non-dot character occurs before it in that component. -/
def splitextRoot (p : String) : String :=
  let l := p.toList
  let sep : Int := match lastIdxOf '/' l with
    | some i => (i : Int)
    | none => -1
  match lastIdxOf '.' l with
  | none => p
  | some d =>
    if sep < (d : Int) then
      if (List.range l.length).any (fun j =>
          decide (sep < (j : Int)) && decide ((j : Int) < (d : Int)) &&
          l.getD j '.' != '.')
      then String.mk (l.take d) else p
    else p

/-- The sidecar extension list of line 213. -/
def shapefileExtensions : List String := [".shp", ".shx", ".dbf", ".prj"]

/-- `zipf.write(file_path, os.path.basename(file_path))`: raises
`FileNotFoundError` when the source file does not exist, otherwise records
the archive entry `(entry name, source path)`. -/
def zipfWrite (fs : Finset String) (file_path arcname : String) :
    Except PyError (String × String) :=
  if file_path ∈ fs then .ok (arcname, file_path)
  else .error (.fileNotFound file_path)

/-- The loop body of `create_shapefile_zip` (lines 216-219): for each
extension, if `base + ext` exists on disk, write it into the archive under
its base file name. -/
def zipWriteLoop (fs : Finset String) (base : String) :
    List String → List (String × String) → Except PyError (List (String × String))
  | [], acc => .ok acc
  | ext :: rest, acc =>
    let file_path := base ++ ext
    if file_path ∈ fs then
      match zipfWrite fs file_path (basename file_path) with
      | .ok entry => zipWriteLoop fs base rest (acc ++ [entry])
      | .error e => .error e
    else zipWriteLoop fs base rest acc

/-- `create_shapefile_zip(shp_path, zip_path)` (lines 210-219), returning the
list of archive entries in write order.  The archive file itself is created
by `zipfile.ZipFile(zip_path, 'w')`; its path is inserted into the file
system by the caller. -/
def create_shapefile_zip (fs : Finset String) (shp_path _zipPath : String) :
    Except PyError (List (String × String)) :=
  zipWriteLoop fs (splitextRoot shp_path) shapefileExtensions []

/-- The header-name expression of line 158:
`results['text_prompt'] if results['process_type'] == 'Text-Prompt Suche'
else 'Automatische Segmentierung'`.  The dict lookup happens only when the
condition holds. -/
def headerNameOf (r : ResultsRecord) : Except PyError String :=
  if r.process_type == "Text-Prompt Suche" then dictGet r.text_prompt "text_prompt"
  else .ok "Automatische Segmentierung"

/-- The full header text of line 158: `f"Ergebnisse: {...}"`. -/
def resultsHeader (r : ResultsRecord) : Except PyError String :=
  (headerNameOf r).map (fun n => "Ergebnisse: " ++ n)

/-- The vectorization branch of lines 187-191: in text-prompt mode the stored
handle `results['sam']` receives the `raster_to_vector` call; otherwise a
brand-new `SamGeo()` instance (fresh allocation token, default arguments) is
constructed for it.  Returns the handle called and the updated allocation
counter. -/
def vectorizeHandle (r : ResultsRecord) (ctr : Nat) :
    Except PyError (ModelHandle × Nat) :=
  if r.process_type == "Text-Prompt Suche" then
    (dictGet r.sam "sam").map (fun h => (h, ctr))
  else
    .ok (({ id := ctr, kind := .samGeo .defaults } : ModelHandle), ctr + 1)

/-- `open(path, "rb")`: raises `FileNotFoundError` on a missing file. -/
def openFile (fs : Finset String) (p : String) : Except PyError Unit :=
  if p ∈ fs then .ok () else .error (.fileNotFound p)

/-- External behaviour of `raster_to_vector`: the set of files the vectorizer
writes (the shapefile and its sidecars). -/
structure RenderEnv where
  vectorWrites : List String

/-- Observable outcome of the results panel: the header text, the handle that
received the `raster_to_vector` call, the archive entries, the resulting
file system, and the allocation counter. -/
structure RenderOut where
  header : String
  vecHandle : ModelHandle
  zipEntries : List (String × String)
  fs : Finset String
  ctr : Nat
deriving DecidableEq

/-- The file system after `raster_to_vector` wrote the vectorizer's output
files (lines 188 / 191). -/
def vectorWritesApply (renv : RenderEnv) (fs : Finset String) : Finset String :=
  renv.vectorWrites.foldl (fun s p => insert p s) fs

/-- The results panel (lines 154-246), restricted to the effects the claims
are about: the success header (line 158), the vectorization call (187-191),
the download-button `open`s on the mask and the visualization (227, 234),
the shapefile archive construction (239-240: `zipfile.ZipFile(zip_path,'w')`
creates the archive file) and the `open` on the archive (244).  The map
widgets and the image comparison are external rendering with no modelled
effect. -/
def renderResultsPanel (renv : RenderEnv) (r : ResultsRecord)
    (fs : Finset String) (ctr : Nat) : Except PyError RenderOut :=
  match headerNameOf r with
  | .error e => .error e
  | .ok headerName =>
    match vectorizeHandle r ctr with
    | .error e => .error e
    | .ok (h, ctr1) =>
      match openFile (vectorWritesApply renv fs) r.mask_path with
      | .error e => .error e
      | .ok _ =>
        match openFile (vectorWritesApply renv fs) r.vis_path with
        | .error e => .error e
        | .ok _ =>
          match create_shapefile_zip (vectorWritesApply renv fs) r.vector_path zip_path with
          | .error e => .error e
          | .ok entries =>
            match openFile (insert zip_path (vectorWritesApply renv fs)) zip_path with
            | .error e => .error e
            | .ok _ =>
                .ok { header := "Ergebnisse: " ++ headerName, vecHandle := h,
                      zipEntries := entries,
                      fs := insert zip_path (vectorWritesApply renv fs), ctr := ctr1 }

/-- The cleanup loop tolerated the absence of a file, but an existing file at
one of the three paths must be removable for the run to proceed past the
loop. -/
def cleanupPassed (env : Env) (fs : Finset String) : Prop :=
  (tiff_path ∈ fs → env.removeOk tiff_path = true) ∧
  (mask_path ∈ fs → env.removeOk mask_path = true) ∧
  (vector_path ∈ fs → env.removeOk vector_path = true)

/-- All external pipeline steps of the branch selected by `process_type`
succeeded. -/
def branchStepsOk (env : Env) (process_type : String) : Prop :=
  env.downloadOk = true ∧
  (if process_type == "Automatische Segmentierung" then
     env.samGeoInitOk = true ∧ env.generateOk = true
   else
     env.langSamInitOk = true ∧ env.predictOk = true) ∧
  env.renderOk = true ∧ env.saveOk = true

/-- The wall-clock cost of the timed span of the chosen branch: model
construction, inference, rendering and saving — the tile download is outside
the two `time.time()` reads. -/
def branchDuration (env : Env) (process_type : String) : Int :=
  (if process_type == "Automatische Segmentierung" then
     env.samGeoInitTime + env.generateTime
   else
     env.langSamInitTime + env.predictTime) +
  env.renderTime + env.saveTime

/-- The model object the automatic branch constructs at line 72, given the
allocation token it consumes. -/
def autoRunHandle (n : Nat) : ModelHandle :=
  { id := n, kind := .samGeo (.explicit "vit_h" 32 (86/100) (92/100)) }

/-- The model object the text-prompt branch constructs at line 112. -/
def textRunHandle (n : Nat) : ModelHandle :=
  { id := n, kind := .langSam }

/-- The file system after the cleanup loop removed whatever existed at the
three fixed paths. -/
def postCleanupFs (fs : Finset String) : Finset String :=
  ((fs.erase tiff_path).erase mask_path).erase vector_path

/-- The results dict produced by the automatic branch (lines 99-106). -/
def autoRecordOf (env : Env) (process_type : String) : ResultsRecord :=
  { tiff_path := tiff_path, mask_path := mask_path, vector_path := vector_path,
    vis_path := vis_path, process_type := process_type,
    duration := env.samGeoInitTime + env.generateTime + env.renderTime + env.saveTime,
    text_prompt := none, sam := none }

/-- The results dict produced by the text-prompt branch (lines 138-147). -/
def textRecordOf (env : Env) (process_type text_prompt : String) (n : Nat) : ResultsRecord :=
  { tiff_path := tiff_path, mask_path := mask_path, vector_path := vector_path,
    vis_path := vis_path, process_type := process_type,
    duration := env.langSamInitTime + env.predictTime + env.renderTime + env.saveTime,
    text_prompt := some text_prompt, sam := some (textRunHandle n) }

/-- An oracle on which every external call succeeds, with sample wall-clock
costs; used to evaluate the model on concrete inputs. -/
def envAll : Env :=
  { removeOk := fun _ => true, downloadOk := true, samGeoInitOk := true,
    langSamInitOk := true, generateOk := true, predictOk := true,
    renderOk := true, saveOk := true,
    downloadTime := 5, samGeoInitTime := 2, langSamInitTime := 3,
    generateTime := 7, predictTime := 11, renderTime := 1, saveTime := 1 }

/-- An oracle on which `os.remove` raises for the tile path and every other
call succeeds. -/
def envRemoveFail : Env :=
  { envAll with removeOk := fun p => !(p == tiff_path) }

/-- An oracle on which the tile download raises. -/
def envDownloadFail : Env :=
  { envAll with downloadOk := false }

/-- A fresh session before the first run: empty working directory, clock at
an arbitrary origin. -/
def app0 : AppState :=
  { sess := initSession,
    pipe := { fs := ∅, ctr := 0, clock := 100, created := [] },
    rerun := false }

/-- A session whose working directory still holds every artifact of a
previous run. -/
def appPrev : AppState :=
  { sess := initSession,
    pipe := { fs := {tiff_path, mask_path, vector_path, "masks.shx", "masks.dbf",
                     "masks.prj", vis_path, zip_path},
              ctr := 3, clock := 500, created := [] },
    rerun := false }

/-- The spec's default bounding box `[13.38000, 52.46436, 13.38320, 52.46720]`. -/
def bbox0 : List ℚ :=
  [1338/100, 5246436/100000, 133832/10000, 5246720/100000]

/-- Fallback record used only to make projections in concrete witness
statements total. -/
def fallbackRecord : ResultsRecord :=
  { tiff_path := "", mask_path := "", vector_path := "", vis_path := "",
    process_type := "", duration := 0, text_prompt := none, sam := none }

/-- A concrete text-prompt run (prompt `"tree"`, thresholds 0.24) on the
all-success oracle. -/
def runTextW : Except PyError Unit × AppState :=
  runHandler envAll "Text-Prompt Suche" "tree" (24/100) (24/100) bbox0 app0

/-- The application state that run leaves behind. -/
def appTextW : AppState := runTextW.2

/-- The results record that run stores. -/
def recTextW : ResultsRecord := appTextW.sess.results.getD fallbackRecord

/-- A concrete automatic run on the all-success oracle. -/
def runAutoW : Except PyError Unit × AppState :=
  runHandler envAll "Automatische Segmentierung" "tree" (24/100) (24/100) bbox0 app0

/-- The application state the automatic run leaves behind. -/
def appAutoW : AppState := runAutoW.2

/-- The results record the automatic run stores. -/
def recAutoW : ResultsRecord := appAutoW.sess.results.getD fallbackRecord

/-- A vectorizer behaviour that writes the shapefile and all three
sidecars. -/
def renvW : RenderEnv :=
  { vectorWrites := [vector_path, "masks.shx", "masks.dbf", "masks.prj"] }

/-- A concrete run on which the tile download raises, started from a
directory full of previous artifacts. -/
def runFailW : Except PyError Unit × AppState :=
  runHandler envDownloadFail "Automatische Segmentierung" "tree" (24/100) (24/100)
    bbox0 appPrev

/-!  Characterization lemmas for the pipeline steps.  -/

theorem StepOut.bind_eq_ok {α β : Type} (x : StepOut α) (f : α → PipeState → StepOut β)
    (b : β) (st' : PipeState) :
    x.bind f = .ok b st' ↔ ∃ a st1, x = .ok a st1 ∧ f a st1 = .ok b st' := by
  cases x with
  | ok a st =>
    simp only [StepOut.bind]
    constructor
    · intro h; exact ⟨a, st, rfl, h⟩
    · rintro ⟨a', st1, h1, h2⟩
      injection h1 with ha hs
      subst ha; subst hs; exact h2
  | raised e st => simp [StepOut.bind]

theorem StepOut.bind_eq_raised {α β : Type} (x : StepOut α) (f : α → PipeState → StepOut β)
    (e : PyError) (st' : PipeState) :
    x.bind f = .raised e st' ↔
      x = .raised e st' ∨ ∃ a st1, x = .ok a st1 ∧ f a st1 = .raised e st' := by
  cases x with
  | ok a st =>
    simp only [StepOut.bind]
    constructor
    · intro h; exact .inr ⟨a, st, rfl, h⟩
    · rintro (h | ⟨a', st1, h1, h2⟩)
      · cases h
      · injection h1 with ha hs
        subst ha; subst hs; exact h2
  | raised e0 st => simp [StepOut.bind]

theorem removeStep_eq_ok (env : Env) (p : String) (st : PipeState) (u : Unit) (st' : PipeState) :
    removeStep env p st = .ok u st' ↔
      (p ∈ st.fs → env.removeOk p = true) ∧ { st with fs := st.fs.erase p } = st' := by
  unfold removeStep
  by_cases hp : p ∈ st.fs
  · by_cases hr : env.removeOk p = true
    · simp [hp, hr]
    · simp [hp, hr]
  · simp only [if_neg hp]
    rw [Finset.erase_eq_of_not_mem hp]
    simp [hp]

theorem downloadStep_eq_ok (env : Env) (bbox : List ℚ) (st : PipeState) (u : Unit)
    (st' : PipeState) :
    downloadStep env bbox st = .ok u st' ↔
      env.downloadOk = true ∧
      { st with fs := insert tiff_path st.fs,
                clock := st.clock + env.downloadTime } = st' := by
  unfold downloadStep
  by_cases h : env.downloadOk = true <;> simp [h]

theorem samGeoInitStep_eq_ok (env : Env) (st : PipeState) (h : ModelHandle) (st' : PipeState) :
    samGeoInitStep env st = .ok h st' ↔
      env.samGeoInitOk = true ∧ autoRunHandle st.ctr = h ∧
      { st with ctr := st.ctr + 1, clock := st.clock + env.samGeoInitTime,
                created := st.created ++ [autoRunHandle st.ctr] } = st' := by
  unfold samGeoInitStep autoRunHandle
  by_cases hk : env.samGeoInitOk = true <;> simp [hk]

theorem langSamInitStep_eq_ok (env : Env) (st : PipeState) (h : ModelHandle) (st' : PipeState) :
    langSamInitStep env st = .ok h st' ↔
      env.langSamInitOk = true ∧ textRunHandle st.ctr = h ∧
      { st with ctr := st.ctr + 1, clock := st.clock + env.langSamInitTime,
                created := st.created ++ [textRunHandle st.ctr] } = st' := by
  unfold langSamInitStep textRunHandle
  by_cases hk : env.langSamInitOk = true <;> simp [hk]

theorem generateStep_eq_ok (env : Env) (st : PipeState) (u : Unit) (st' : PipeState) :
    generateStep env st = .ok u st' ↔
      env.generateOk = true ∧
      { st with fs := insert mask_path st.fs,
                clock := st.clock + env.generateTime } = st' := by
  unfold generateStep
  by_cases h : env.generateOk = true <;> simp [h]

theorem predictStep_eq_ok (env : Env) (tp : String) (bt tt : ℚ) (st : PipeState) (u : Unit)
    (st' : PipeState) :
    predictStep env tp bt tt st = .ok u st' ↔
      env.predictOk = true ∧
      { st with fs := insert mask_path st.fs,
                clock := st.clock + env.predictTime } = st' := by
  unfold predictStep
  by_cases h : env.predictOk = true <;> simp [h]

theorem showAnnsStep_eq_ok (env : Env) (title : String) (st : PipeState) (u : Unit)
    (st' : PipeState) :
    showAnnsStep env title st = .ok u st' ↔
      env.renderOk = true ∧ { st with clock := st.clock + env.renderTime } = st' := by
  unfold showAnnsStep
  by_cases h : env.renderOk = true <;> simp [h]

theorem savefigStep_eq_ok (env : Env) (st : PipeState) (u : Unit) (st' : PipeState) :
    savefigStep env st = .ok u st' ↔
      env.saveOk = true ∧
      { st with fs := insert vis_path st.fs,
                clock := st.clock + env.saveTime } = st' := by
  unfold savefigStep
  by_cases h : env.saveOk = true <;> simp [h]

theorem cleanupStep_eq_ok (env : Env) (st : PipeState) (u : Unit) (st' : PipeState) :
    cleanupStep env st = .ok u st' ↔
      cleanupPassed env st.fs ∧ { st with fs := postCleanupFs st.fs } = st' := by
  have h1 : mask_path ≠ tiff_path := by decide
  have h2 : vector_path ≠ tiff_path := by decide
  have h3 : vector_path ≠ mask_path := by decide
  unfold cleanupStep cleanupPassed postCleanupFs
  simp [StepOut.bind_eq_ok, removeStep_eq_ok, Finset.mem_erase, h1, h2, h3, and_assoc]

theorem clock_span_cancel (c i g rr s : Int) : c + i + g + rr + s - c = i + g + rr + s := by
  omega

theorem autoBranch_eq_ok (env : Env) (pt : String) (st : PipeState)
    (r : ResultsRecord) (st' : PipeState) :
    autoBranch env pt st = .ok r st' ↔
      env.samGeoInitOk = true ∧ env.generateOk = true ∧
      env.renderOk = true ∧ env.saveOk = true ∧
      ({ st with fs := insert vis_path (insert mask_path st.fs),
                 ctr := st.ctr + 1,
                 clock := st.clock + env.samGeoInitTime + env.generateTime
                          + env.renderTime + env.saveTime,
                 created := st.created ++ [autoRunHandle st.ctr] } : PipeState) = st' ∧
      autoRecordOf env pt = r := by
  unfold autoBranch
  constructor
  · intro h
    rw [StepOut.bind_eq_ok] at h
    obtain ⟨sam, st1, h1, h⟩ := h
    rw [samGeoInitStep_eq_ok] at h1
    obtain ⟨hi, hsam, hst1⟩ := h1
    subst hst1; subst hsam
    rw [StepOut.bind_eq_ok] at h
    obtain ⟨u1, st2, h2, h⟩ := h
    rw [generateStep_eq_ok] at h2
    obtain ⟨hg, hst2⟩ := h2
    subst hst2
    rw [StepOut.bind_eq_ok] at h
    obtain ⟨u2, st3, h3, h⟩ := h
    rw [showAnnsStep_eq_ok] at h3
    obtain ⟨hr2, hst3⟩ := h3
    subst hst3
    rw [StepOut.bind_eq_ok] at h
    obtain ⟨u3, st4, h4, h⟩ := h
    rw [savefigStep_eq_ok] at h4
    obtain ⟨hs, hst4⟩ := h4
    subst hst4
    injection h with hrec hst
    refine ⟨hi, hg, hr2, hs, hst, ?_⟩
    rw [← hrec]
    simp [autoRecordOf]
    all_goals omega
  · rintro ⟨hi, hg, hr2, hs, hst, hrec⟩
    subst hst; subst hrec
    simp [samGeoInitStep, generateStep, showAnnsStep, savefigStep, StepOut.bind,
      hi, hg, hr2, hs, autoRunHandle, autoRecordOf]
    all_goals omega

theorem textBranch_eq_ok (env : Env) (pt tp : String) (bt tt : ℚ) (st : PipeState)
    (r : ResultsRecord) (st' : PipeState) :
    textBranch env pt tp bt tt st = .ok r st' ↔
      env.langSamInitOk = true ∧ env.predictOk = true ∧
      env.renderOk = true ∧ env.saveOk = true ∧
      ({ st with fs := insert vis_path (insert mask_path st.fs),
                 ctr := st.ctr + 1,
                 clock := st.clock + env.langSamInitTime + env.predictTime
                          + env.renderTime + env.saveTime,
                 created := st.created ++ [textRunHandle st.ctr] } : PipeState) = st' ∧
      textRecordOf env pt tp st.ctr = r := by
  unfold textBranch
  constructor
  · intro h
    rw [StepOut.bind_eq_ok] at h
    obtain ⟨sam, st1, h1, h⟩ := h
    rw [langSamInitStep_eq_ok] at h1
    obtain ⟨hi, hsam, hst1⟩ := h1
    subst hst1; subst hsam
    rw [StepOut.bind_eq_ok] at h
    obtain ⟨u1, st2, h2, h⟩ := h
    rw [predictStep_eq_ok] at h2
    obtain ⟨hg, hst2⟩ := h2
    subst hst2
    rw [StepOut.bind_eq_ok] at h
    obtain ⟨u2, st3, h3, h⟩ := h
    rw [showAnnsStep_eq_ok] at h3
    obtain ⟨hr2, hst3⟩ := h3
    subst hst3
    rw [StepOut.bind_eq_ok] at h
    obtain ⟨u3, st4, h4, h⟩ := h
    rw [savefigStep_eq_ok] at h4
    obtain ⟨hs, hst4⟩ := h4
    subst hst4
    injection h with hrec hst
    refine ⟨hi, hg, hr2, hs, hst, ?_⟩
    rw [← hrec]
    simp [textRecordOf, textRunHandle]
    all_goals omega
  · rintro ⟨hi, hg, hr2, hs, hst, hrec⟩
    subst hst; subst hrec
    simp [langSamInitStep, predictStep, showAnnsStep, savefigStep, StepOut.bind,
      hi, hg, hr2, hs, textRunHandle, textRecordOf]
    all_goals omega

theorem pipelineRun_eq_ok_auto (env : Env) (pt tp : String) (bt tt : ℚ) (bbox : List ℚ)
    (st : PipeState) (r : ResultsRecord) (st' : PipeState)
    (hpt : (pt == "Automatische Segmentierung") = true) :
    pipelineRun env pt tp bt tt bbox st = .ok r st' ↔
      cleanupPassed env st.fs ∧ env.downloadOk = true ∧
      env.samGeoInitOk = true ∧ env.generateOk = true ∧
      env.renderOk = true ∧ env.saveOk = true ∧
      ({ fs := insert vis_path (insert mask_path (insert tiff_path (postCleanupFs st.fs))),
         ctr := st.ctr + 1,
         clock := st.clock + env.downloadTime + env.samGeoInitTime + env.generateTime
                  + env.renderTime + env.saveTime,
         created := st.created ++ [autoRunHandle st.ctr] } : PipeState) = st' ∧
      autoRecordOf env pt = r := by
  unfold pipelineRun
  simp only [hpt, eq_self_iff_true, if_true]
  constructor
  · intro h
    rw [StepOut.bind_eq_ok] at h
    obtain ⟨u0, st1, h1, h⟩ := h
    rw [cleanupStep_eq_ok] at h1
    obtain ⟨hcl, hst1⟩ := h1
    subst hst1
    rw [StepOut.bind_eq_ok] at h
    obtain ⟨u1, st2, h2, h⟩ := h
    rw [downloadStep_eq_ok] at h2
    obtain ⟨hd, hst2⟩ := h2
    subst hst2
    rw [autoBranch_eq_ok] at h
    obtain ⟨hi, hg, hr2, hs, hst, hrec⟩ := h
    exact ⟨hcl, hd, hi, hg, hr2, hs, hst, hrec⟩
  · rintro ⟨hcl, hd, hi, hg, hr2, hs, hst, hrec⟩
    rw [StepOut.bind_eq_ok]
    refine ⟨(), { st with fs := postCleanupFs st.fs }, ?_, ?_⟩
    · rw [cleanupStep_eq_ok]; exact ⟨hcl, rfl⟩
    · rw [StepOut.bind_eq_ok]
      refine ⟨(), { st with fs := insert tiff_path (postCleanupFs st.fs),
                            clock := st.clock + env.downloadTime }, ?_, ?_⟩
      · rw [downloadStep_eq_ok]; exact ⟨hd, rfl⟩
      · rw [autoBranch_eq_ok]
        exact ⟨hi, hg, hr2, hs, hst, hrec⟩

theorem pipelineRun_eq_ok_text (env : Env) (pt tp : String) (bt tt : ℚ) (bbox : List ℚ)
    (st : PipeState) (r : ResultsRecord) (st' : PipeState)
    (hpt : (pt == "Automatische Segmentierung") = false) :
    pipelineRun env pt tp bt tt bbox st = .ok r st' ↔
      cleanupPassed env st.fs ∧ env.downloadOk = true ∧
      env.langSamInitOk = true ∧ env.predictOk = true ∧
      env.renderOk = true ∧ env.saveOk = true ∧
      ({ fs := insert vis_path (insert mask_path (insert tiff_path (postCleanupFs st.fs))),
         ctr := st.ctr + 1,
         clock := st.clock + env.downloadTime + env.langSamInitTime + env.predictTime
                  + env.renderTime + env.saveTime,
         created := st.created ++ [textRunHandle st.ctr] } : PipeState) = st' ∧
      textRecordOf env pt tp st.ctr = r := by
  unfold pipelineRun
  simp only [hpt, Bool.false_eq_true, if_false]
  constructor
  · intro h
    rw [StepOut.bind_eq_ok] at h
    obtain ⟨u0, st1, h1, h⟩ := h
    rw [cleanupStep_eq_ok] at h1
    obtain ⟨hcl, hst1⟩ := h1
    subst hst1
    rw [StepOut.bind_eq_ok] at h
    obtain ⟨u1, st2, h2, h⟩ := h
    rw [downloadStep_eq_ok] at h2
    obtain ⟨hd, hst2⟩ := h2
    subst hst2
    rw [textBranch_eq_ok] at h
    obtain ⟨hi, hg, hr2, hs, hst, hrec⟩ := h
    exact ⟨hcl, hd, hi, hg, hr2, hs, hst, hrec⟩
  · rintro ⟨hcl, hd, hi, hg, hr2, hs, hst, hrec⟩
    rw [StepOut.bind_eq_ok]
    refine ⟨(), { st with fs := postCleanupFs st.fs }, ?_, ?_⟩
    · rw [cleanupStep_eq_ok]; exact ⟨hcl, rfl⟩
    · rw [StepOut.bind_eq_ok]
      refine ⟨(), { st with fs := insert tiff_path (postCleanupFs st.fs),
                            clock := st.clock + env.downloadTime }, ?_, ?_⟩
      · rw [downloadStep_eq_ok]; exact ⟨hd, rfl⟩
      · rw [textBranch_eq_ok]
        exact ⟨hi, hg, hr2, hs, hst, hrec⟩

theorem zipWriteLoop_eq_ok (fs : Finset String) (base : String) (exts : List String)
    (acc : List (String × String)) :
    zipWriteLoop fs base exts acc =
      .ok (acc ++ exts.filterMap (fun ext =>
        if base ++ ext ∈ fs then some (basename (base ++ ext), base ++ ext) else none)) := by
  induction exts generalizing acc with
  | nil => simp [zipWriteLoop]
  | cons ext rest ih =>
    by_cases h : base ++ ext ∈ fs
    · simp [zipWriteLoop, h, zipfWrite, ih]
    · simp [zipWriteLoop, h, ih]

theorem removeStep_cases (env : Env) (p : String) (st : PipeState) :
    removeStep env p st = .ok () { st with fs := st.fs.erase p } ∨
    removeStep env p st = .ok () st ∨
    removeStep env p st = .raised .osError st := by
  unfold removeStep
  by_cases hp : p ∈ st.fs
  · by_cases hr : env.removeOk p = true <;> simp [hp, hr]
  · simp [hp]

theorem cleanupStep_fs_subset (env : Env) (st : PipeState) :
    (cleanupStep env st).state.fs ⊆ st.fs := by
  have d1 : mask_path ≠ tiff_path := by decide
  have d2 : vector_path ≠ tiff_path := by decide
  have d3 : vector_path ≠ mask_path := by decide
  by_cases a1 : tiff_path ∈ st.fs <;>
    by_cases a2 : env.removeOk tiff_path = true <;>
    by_cases b1 : mask_path ∈ st.fs <;>
    by_cases b2 : env.removeOk mask_path = true <;>
    by_cases c1 : vector_path ∈ st.fs <;>
    by_cases c2 : env.removeOk vector_path = true <;>
    simp [cleanupStep, removeStep, StepOut.bind, StepOut.state,
      Finset.mem_erase, a1, a2, b1, b2, c1, c2, d1, d2, d3] <;>
    (intro q hq
     try simp only [Finset.mem_erase] at hq
     tauto)

theorem cleanupStep_fs_mem (env : Env) (st : PipeState) (q : String)
    (h1 : q ≠ tiff_path) (h2 : q ≠ mask_path) (h3 : q ≠ vector_path) :
    q ∈ (cleanupStep env st).state.fs ↔ q ∈ st.fs := by
  have d1 : mask_path ≠ tiff_path := by decide
  have d2 : vector_path ≠ tiff_path := by decide
  have d3 : vector_path ≠ mask_path := by decide
  by_cases a1 : tiff_path ∈ st.fs <;>
    by_cases a2 : env.removeOk tiff_path = true <;>
    by_cases b1 : mask_path ∈ st.fs <;>
    by_cases b2 : env.removeOk mask_path = true <;>
    by_cases c1 : vector_path ∈ st.fs <;>
    by_cases c2 : env.removeOk vector_path = true <;>
    simp [cleanupStep, removeStep, StepOut.bind, StepOut.state,
      Finset.mem_erase, a1, a2, b1, b2, c1, c2, d1, d2, d3, h1, h2, h3]

theorem runHandler_ok_elim (env : Env) (pt tp : String) (bt tt : ℚ) (bbox : List ℚ)
    (a a1 : AppState) (h : runHandler env pt tp bt tt bbox a = (.ok (), a1)) :
    ∃ r st, pipelineRun env pt tp bt tt bbox a.pipe = .ok r st ∧
      a1 = { sess := { results := some r, map_visible := false },
             pipe := st, rerun := true } := by
  unfold runHandler at h
  split at h
  next e st hp => simp at h
  next r st hp =>
    simp only [Prod.mk.injEq] at h
    exact ⟨r, st, hp, h.2.symm⟩

theorem runHandler_error_sess (env : Env) (pt tp : String) (bt tt : ℚ) (bbox : List ℚ)
    (a a1 : AppState) (e : PyError)
    (h : runHandler env pt tp bt tt bbox a = (.error e, a1)) :
    a1.sess = a.sess := by
  unfold runHandler at h
  split at h
  next e2 st hp =>
    simp only [Prod.mk.injEq] at h
    rw [← h.2]
  next r st hp => simp at h

theorem pipelineRun_ok_flags (env : Env) (pt tp : String) (bt tt : ℚ) (bbox : List ℚ)
    (st : PipeState) (r : ResultsRecord) (st' : PipeState)
    (h : pipelineRun env pt tp bt tt bbox st = .ok r st') :
    cleanupPassed env st.fs ∧ branchStepsOk env pt := by
  by_cases hpt : (pt == "Automatische Segmentierung") = true
  · rw [pipelineRun_eq_ok_auto env pt tp bt tt bbox st r st' hpt] at h
    obtain ⟨hcl, hd, hi, hg, hr2, hs, -, -⟩ := h
    refine ⟨hcl, ?_⟩
    unfold branchStepsOk
    rw [hpt]
    simp only [eq_self_iff_true, if_true]
    exact ⟨hd, ⟨hi, hg⟩, hr2, hs⟩
  · have hpt' : (pt == "Automatische Segmentierung") = false := by
      simpa using hpt
    rw [pipelineRun_eq_ok_text env pt tp bt tt bbox st r st' hpt'] at h
    obtain ⟨hcl, hd, hi, hg, hr2, hs, -, -⟩ := h
    refine ⟨hcl, ?_⟩
    unfold branchStepsOk
    rw [hpt']
    simp only [Bool.false_eq_true, if_false]
    exact ⟨hd, ⟨hi, hg⟩, hr2, hs⟩

/-!  Claim theorems.  -/

/-- C1: an exception raised by any external call during the run-button
handler propagates and aborts the run with the session state (`results`,
`map_visible`) exactly as before the run; a results record together with
`map_visible = false` is stored only when the cleanup and every external
step of the chosen branch completed. -/
theorem run_session_atomic (env : Env) (pt tp : String) (bt tt : ℚ) (bbox : List ℚ)
    (a : AppState) :
    (∀ e a1, runHandler env pt tp bt tt bbox a = (.error e, a1) → a1.sess = a.sess) ∧
    (∀ a1, runHandler env pt tp bt tt bbox a = (.ok (), a1) →
      cleanupPassed env a.pipe.fs ∧ branchStepsOk env pt ∧
      (∃ r, a1.sess.results = some r) ∧ a1.sess.map_visible = false) := by
  constructor
  · intro e a1 h
    exact runHandler_error_sess env pt tp bt tt bbox a a1 e h
  · intro a1 h
    obtain ⟨r, st, hp, ha1⟩ := runHandler_ok_elim env pt tp bt tt bbox a a1 h
    obtain ⟨hcl, hb⟩ := pipelineRun_ok_flags env pt tp bt tt bbox a.pipe r st hp
    subst ha1
    exact ⟨hcl, hb, ⟨r, rfl⟩, rfl⟩

/-- Witness for C1 at a concrete input: a failing tile download aborts the
run and leaves the session state untouched. -/
theorem run_session_atomic_witness :
    runFailW = (Except.error PyError.downloadError, runFailW.2) ∧
    runFailW.2.sess = appPrev.sess := by
  refine ⟨by rfl, ?_⟩
  exact (run_session_atomic envDownloadFail "Automatische Segmentierung" "tree"
    (24/100) (24/100) bbox0 appPrev).1 PyError.downloadError runFailW.2 (by rfl)

/-- C4: a successful run stores a results record holding the four artifact
paths, the mode and the duration; the record carries the prompt string and
the live model handle if and only if the mode is text-prompt; and the
handler then hides the map and forces a full rerun. -/
theorem results_record_contents (env : Env) (pt tp : String) (bt tt : ℚ)
    (bbox : List ℚ) (a a1 : AppState)
    (hpt : pt = "Automatische Segmentierung" ∨ pt = "Text-Prompt Suche")
    (h : runHandler env pt tp bt tt bbox a = (.ok (), a1)) :
    ∃ r, a1.sess.results = some r ∧
      r.tiff_path = tiff_path ∧ r.mask_path = mask_path ∧
      r.vector_path = vector_path ∧ r.vis_path = vis_path ∧
      r.process_type = pt ∧ r.duration = branchDuration env pt ∧
      (r.text_prompt.isSome ↔ pt = "Text-Prompt Suche") ∧
      (r.sam.isSome ↔ pt = "Text-Prompt Suche") ∧
      (pt = "Text-Prompt Suche" → r.text_prompt = some tp) ∧
      a1.sess.map_visible = false ∧ a1.rerun = true := by
  obtain ⟨r, st, hp, ha1⟩ := runHandler_ok_elim env pt tp bt tt bbox a a1 h
  subst ha1
  rcases hpt with hpt | hpt
  · subst hpt
    rw [pipelineRun_eq_ok_auto env _ tp bt tt bbox a.pipe r st (by decide)] at hp
    obtain ⟨-, -, -, -, -, -, -, hrec⟩ := hp
    subst hrec
    have hne : ("Automatische Segmentierung" : String) ≠ "Text-Prompt Suche" := by decide
    refine ⟨autoRecordOf env _, rfl, ?_⟩
    simp [autoRecordOf, branchDuration, hne]
  · subst hpt
    rw [pipelineRun_eq_ok_text env _ tp bt tt bbox a.pipe r st (by decide)] at hp
    obtain ⟨-, -, -, -, -, -, -, hrec⟩ := hp
    subst hrec
    refine ⟨textRecordOf env _ tp a.pipe.ctr, rfl, ?_⟩
    simp [textRecordOf, branchDuration]

/-- Witness for C4 at a concrete input: the text-prompt run with prompt
`"tree"` stores the prompt and hides the map. -/
theorem results_record_contents_witness :
    runTextW = (Except.ok (), appTextW) ∧
    appTextW.sess.results = some recTextW ∧
    recTextW.process_type = "Text-Prompt Suche" ∧
    recTextW.text_prompt = some "tree" ∧
    appTextW.sess.map_visible = false ∧ appTextW.rerun = true := by
  obtain ⟨r, hr, -, -, -, -, hmode, -, -, -, hprompt, hvis, hrerun⟩ :=
    results_record_contents envAll "Text-Prompt Suche" "tree" (24/100) (24/100)
      bbox0 app0 appTextW (Or.inr rfl) (by rfl)
  have hrw : recTextW = r := by
    unfold recTextW
    rw [hr]
    rfl
  subst hrw
  exact ⟨by rfl, hr, hmode, hprompt rfl, hvis, hrerun⟩

/-- C8: the recorded duration is the wall-clock span of the
segmentation-and-visualization step only — model construction, inference,
rendering and saving, the clock being read after the download completes and
again after the image is saved — and is nonnegative whenever each of those
steps takes nonnegative time. -/
theorem duration_measures_segmentation_span (env : Env) (pt tp : String) (bt tt : ℚ)
    (bbox : List ℚ) (a a1 : AppState) (r : ResultsRecord)
    (h : runHandler env pt tp bt tt bbox a = (.ok (), a1))
    (hr : a1.sess.results = some r)
    (hmono : 0 ≤ env.samGeoInitTime ∧ 0 ≤ env.langSamInitTime ∧ 0 ≤ env.generateTime ∧
             0 ≤ env.predictTime ∧ 0 ≤ env.renderTime ∧ 0 ≤ env.saveTime) :
    r.duration = branchDuration env pt ∧ 0 ≤ r.duration := by
  obtain ⟨r0, st, hp, ha1⟩ := runHandler_ok_elim env pt tp bt tt bbox a a1 h
  subst ha1
  have hrr : r0 = r := by simpa using hr
  subst hrr
  obtain ⟨m1, m2, m3, m4, m5, m6⟩ := hmono
  by_cases hpt : (pt == "Automatische Segmentierung") = true
  · rw [pipelineRun_eq_ok_auto env pt tp bt tt bbox a.pipe r0 st hpt] at hp
    obtain ⟨-, -, -, -, -, -, -, hrec⟩ := hp
    subst hrec
    constructor
    · simp [autoRecordOf, branchDuration, hpt]
    · simp only [autoRecordOf]
      omega
  · have hpt' : (pt == "Automatische Segmentierung") = false := by simpa using hpt
    rw [pipelineRun_eq_ok_text env pt tp bt tt bbox a.pipe r0 st hpt'] at hp
    obtain ⟨-, -, -, -, -, -, -, hrec⟩ := hp
    subst hrec
    constructor
    · simp [textRecordOf, branchDuration, hpt']
    · simp only [textRecordOf]
      omega

/-- Witness for C8 at a concrete input: the text-prompt run's duration is the
sum of the four timed step costs of the oracle and is nonnegative. -/
theorem duration_measures_segmentation_span_witness :
    recTextW.duration = branchDuration envAll "Text-Prompt Suche" ∧
    0 ≤ recTextW.duration := by
  exact duration_measures_segmentation_span envAll "Text-Prompt Suche" "tree"
    (24/100) (24/100) bbox0 app0 appTextW recTextW (by rfl) (by rfl)
    ⟨by decide, by decide, by decide, by decide, by decide, by decide⟩


/-- C6: after the reset-button handler fires, `results` is `none` and
`map_visible` is `true`, i.e. the session state equals exactly the
initial-load state of lines 16-19 (and a full rerun is requested), returning
the UI to the Input state. -/
theorem reset_restores_initial_state (s : SessionState) :
    resetHandler s = (initSession, true) ∧
    initSession.results = none ∧ initSession.map_visible = true := by
  refine ⟨?_, rfl, rfl⟩
  unfold resetHandler initSession
  rfl

/-- C2: `create_shapefile_zip` never raises for any missing sidecar, and the
archive entries are exactly the existing files among `{.shp,.shx,.dbf,.prj}`
sharing the vector artifact's base name, each stored under its own base file
name; in particular, with only `.shp` and `.dbf` on disk the archive holds
exactly those two entries. -/
theorem create_shapefile_zip_entries (fs : Finset String) (shp_path zp : String) :
    ∃ es, create_shapefile_zip fs shp_path zp = .ok es ∧
      es = shapefileExtensions.filterMap (fun ext =>
        if splitextRoot shp_path ++ ext ∈ fs
        then some (basename (splitextRoot shp_path ++ ext), splitextRoot shp_path ++ ext)
        else none) ∧
      (∀ nm src, (nm, src) ∈ es ↔
        ∃ ext ∈ shapefileExtensions,
          src = splitextRoot shp_path ++ ext ∧ src ∈ fs ∧ nm = basename src) ∧
      create_shapefile_zip ({"masks.shp", "masks.dbf"} : Finset String) "masks.shp" zp
        = .ok [("masks.shp", "masks.shp"), ("masks.dbf", "masks.dbf")] := by
  refine ⟨_, ?_, rfl, ?_, ?_⟩
  · unfold create_shapefile_zip
    simpa using zipWriteLoop_eq_ok fs (splitextRoot shp_path) shapefileExtensions []
  · intro nm src
    simp only [List.mem_filterMap, Option.ite_none_right_eq_some, Option.some.injEq,
      Prod.mk.injEq]
    constructor
    · rintro ⟨ext, hext, hmem, hnm, rfl⟩
      exact ⟨ext, hext, rfl, hmem, hnm.symm⟩
    · rintro ⟨ext, hext, rfl, hmem, hnm⟩
      exact ⟨ext, hext, hmem, hnm.symm, rfl⟩
  · rfl

/-- C10: the pre-run cleanup deletes at most the three fixed paths and
touches no other path — any other path's presence is unchanged; concretely,
starting from a directory holding all artifacts of a previous run, the
sidecars `masks.shx`/`masks.dbf`/`masks.prj`, `visualization.png` and
`segmentation_shp.zip` survive the cleanup, and a subsequent archive export
picks the stale sidecars up. -/
theorem cleanup_frame_condition (env : Env) (st : PipeState) :
    (cleanupStep env st).state.fs ⊆ st.fs ∧
    (∀ q, q ≠ tiff_path → q ≠ mask_path → q ≠ vector_path →
      (q ∈ (cleanupStep env st).state.fs ↔ q ∈ st.fs)) ∧
    (cleanupStep envAll appPrev.pipe).state.fs =
      ({"masks.shx", "masks.dbf", "masks.prj", vis_path, zip_path} : Finset String) ∧
    create_shapefile_zip (cleanupStep envAll appPrev.pipe).state.fs vector_path zip_path
      = .ok [("masks.shx", "masks.shx"), ("masks.dbf", "masks.dbf"),
             ("masks.prj", "masks.prj")] := by
  refine ⟨cleanupStep_fs_subset env st,
          fun q h1 h2 h3 => cleanupStep_fs_mem env st q h1 h2 h3, ?_, ?_⟩
  · decide
  · rfl

theorem renderResultsPanel_ok_header (renv : RenderEnv) (r : ResultsRecord)
    (fs : Finset String) (ctr : Nat) (out : RenderOut) (v : String)
    (hv : headerNameOf r = .ok v)
    (h : renderResultsPanel renv r fs ctr = .ok out) :
    out.header = "Ergebnisse: " ++ v := by
  unfold renderResultsPanel at h
  split at h
  · exact Except.noConfusion h
  next headerName heq =>
    rw [hv] at heq
    injection heq with hveq
    subst hveq
    split at h
    · exact Except.noConfusion h
    · split at h
      · exact Except.noConfusion h
      · split at h
        · exact Except.noConfusion h
        · split at h
          · exact Except.noConfusion h
          · split at h
            · exact Except.noConfusion h
            · injection h with h1
              rw [← h1]

theorem renderResultsPanel_error_shape (renv : RenderEnv) (r : ResultsRecord)
    (fs : Finset String) (ctr : Nat) (e : PyError) (v : String) (p : ModelHandle × Nat)
    (hv : headerNameOf r = .ok v)
    (hvec : vectorizeHandle r ctr = .ok p)
    (h : renderResultsPanel renv r fs ctr = .error e) :
    ∃ pth, e = PyError.fileNotFound pth := by
  unfold renderResultsPanel at h
  split at h
  next heq =>
    rw [hv] at heq
    exact Except.noConfusion heq
  next headerName heq =>
    split at h
    next heq2 =>
      rw [hvec] at heq2
      exact Except.noConfusion heq2
    next hm ctr1 heq2 =>
      split at h
      next heq3 =>
        unfold openFile at heq3
        split at heq3
        · exact Except.noConfusion heq3
        · injection heq3 with h2
          injection h with h3
          exact ⟨_, h3.symm.trans h2.symm⟩
      · split at h
        next heq3 =>
          unfold openFile at heq3
          split at heq3
          · exact Except.noConfusion heq3
          · injection heq3 with h2
            injection h with h3
            exact ⟨_, h3.symm.trans h2.symm⟩
        · split at h
          next heq3 =>
            unfold create_shapefile_zip at heq3
            rw [zipWriteLoop_eq_ok] at heq3
            exact Except.noConfusion heq3
          · split at h
            next heq3 =>
              unfold openFile at heq3
              split at heq3
              · exact Except.noConfusion heq3
              · injection heq3 with h2
                injection h with h3
                exact ⟨_, h3.symm.trans h2.symm⟩
            · exact Except.noConfusion h

theorem headerNameOf_textRecord (env : Env) (pt tp : String) (n : Nat) :
    ∃ v, headerNameOf (textRecordOf env pt tp n) = .ok v := by
  unfold headerNameOf textRecordOf dictGet
  by_cases hg : (pt == "Text-Prompt Suche") = true
  · simp [hg]
  · simp only [Bool.not_eq_true] at hg
    simp [hg]

theorem vectorizeHandle_textRecord (env : Env) (pt tp : String) (n ctr : Nat) :
    ∃ p, vectorizeHandle (textRecordOf env pt tp n) ctr = .ok p := by
  unfold vectorizeHandle textRecordOf dictGet
  by_cases hg : (pt == "Text-Prompt Suche") = true
  · simp [hg, Except.map]
  · simp only [Bool.not_eq_true] at hg
    simp [hg]

/-- Witness for C10 at a concrete input: the visualization image of a prior
run is untouched by the cleanup. -/
theorem cleanup_frame_condition_witness :
    ("visualization.png" ≠ tiff_path) ∧
    ("visualization.png" ∈ (cleanupStep envAll appPrev.pipe).state.fs ↔
      "visualization.png" ∈ appPrev.pipe.fs) := by
  refine ⟨by decide, ?_⟩
  exact (cleanup_frame_condition envAll appPrev.pipe).2.1 "visualization.png"
    (by decide) (by decide) (by decide)

/-- C5: the results panel calls `raster_to_vector` on the stored model handle
`results['sam']` if and only if the mode is text-prompt; in automatic mode it
constructs a fresh default-argument `SamGeo()` instance for the call, never
reusing an instance created during the run. -/
theorem vectorization_handle_by_mode (env : Env) (pt tp : String) (bt tt : ℚ)
    (bbox : List ℚ) (a a1 : AppState) (r : ResultsRecord)
    (hpt : pt = "Automatische Segmentierung" ∨ pt = "Text-Prompt Suche")
    (hinv : ∀ h0 ∈ a.pipe.created, h0.id < a.pipe.ctr)
    (h : runHandler env pt tp bt tt bbox a = (.ok (), a1))
    (hr : a1.sess.results = some r) :
    (pt = "Text-Prompt Suche" → ∃ h0, r.sam = some h0 ∧ h0 ∈ a1.pipe.created ∧
      vectorizeHandle r a1.pipe.ctr = .ok (h0, a1.pipe.ctr)) ∧
    (pt = "Automatische Segmentierung" → ∃ h0,
      vectorizeHandle r a1.pipe.ctr = .ok (h0, a1.pipe.ctr + 1) ∧
      h0.kind = ModelKind.samGeo SamArgs.defaults ∧ h0 ∉ a1.pipe.created) := by
  obtain ⟨r0, st, hp, ha1⟩ := runHandler_ok_elim env pt tp bt tt bbox a a1 h
  subst ha1
  have hrr : r0 = r := by simpa using hr
  subst hrr
  rcases hpt with hpt | hpt <;> subst hpt
  · rw [pipelineRun_eq_ok_auto env _ tp bt tt bbox a.pipe r0 st (by decide)] at hp
    obtain ⟨-, -, -, -, -, -, hst, hrec⟩ := hp
    subst hst; subst hrec
    constructor
    · intro hcontra
      exact absurd hcontra (by decide)
    · intro _
      have hgf : (("Automatische Segmentierung" : String) == "Text-Prompt Suche") = false := by
        decide
      refine ⟨{ id := a.pipe.ctr + 1, kind := ModelKind.samGeo SamArgs.defaults },
        ?_, rfl, ?_⟩
      · simp [vectorizeHandle, autoRecordOf, hgf]
      · intro hmem
        simp only [List.mem_append, List.mem_singleton] at hmem
        rcases hmem with hmem | hmem
        · have hlt : a.pipe.ctr + 1 < a.pipe.ctr := hinv _ hmem
          omega
        · rw [autoRunHandle] at hmem
          injection hmem with h1 h2
          omega
  · rw [pipelineRun_eq_ok_text env _ tp bt tt bbox a.pipe r0 st (by decide)] at hp
    obtain ⟨-, -, -, -, -, -, hst, hrec⟩ := hp
    subst hst; subst hrec
    constructor
    · intro _
      have hgt : (("Text-Prompt Suche" : String) == "Text-Prompt Suche") = true := by decide
      refine ⟨textRunHandle a.pipe.ctr, rfl, ?_, ?_⟩
      · simp
      · simp [vectorizeHandle, textRecordOf, dictGet, hgt, Except.map]
    · intro hcontra
      exact absurd hcontra (by decide)

/-- Witness for C5 at a concrete input: after the automatic run, the
vectorization uses a freshly allocated default `SamGeo()` handle that was not
created during the run. -/
theorem vectorization_handle_by_mode_witness :
    (({ id := appAutoW.pipe.ctr, kind := ModelKind.samGeo SamArgs.defaults } : ModelHandle)
        ∉ appAutoW.pipe.created) ∧
    vectorizeHandle recAutoW appAutoW.pipe.ctr
      = .ok ({ id := appAutoW.pipe.ctr, kind := ModelKind.samGeo SamArgs.defaults },
             appAutoW.pipe.ctr + 1) := by
  obtain ⟨-, hauto⟩ := vectorization_handle_by_mode envAll "Automatische Segmentierung"
    "tree" (24/100) (24/100) bbox0 app0 appAutoW recAutoW (Or.inl rfl)
    (by intro h0 hm; simp [app0] at hm) (by rfl) (by rfl)
  obtain ⟨h0, hveq, hkind, hnm⟩ := hauto rfl
  have hcomp : vectorizeHandle recAutoW appAutoW.pipe.ctr
      = .ok ({ id := appAutoW.pipe.ctr, kind := ModelKind.samGeo SamArgs.defaults },
             appAutoW.pipe.ctr + 1) := by rfl
  rw [hcomp] at hveq
  injection hveq with hpair
  injection hpair with hh0 hc
  rw [← hh0] at hnm
  exact ⟨hnm, hcomp⟩

/-- C7: for a text-prompt results record the Results header literally
contains the stored prompt (`header = "Ergebnisse: " ++ prompt`); for an
automatic record the header names the automatic mode instead. -/
theorem results_header_names_mode (env : Env) (pt tp : String) (bt tt : ℚ)
    (bbox : List ℚ) (a a1 : AppState) (r : ResultsRecord)
    (h : runHandler env pt tp bt tt bbox a = (.ok (), a1))
    (hr : a1.sess.results = some r) :
    (pt = "Text-Prompt Suche" →
      resultsHeader r = .ok ("Ergebnisse: " ++ tp) ∧
      ∀ renv fs ctr out, renderResultsPanel renv r fs ctr = .ok out →
        ∃ pre post, out.header = pre ++ tp ++ post) ∧
    (pt = "Automatische Segmentierung" →
      resultsHeader r = .ok "Ergebnisse: Automatische Segmentierung" ∧
      ∀ renv fs ctr out, renderResultsPanel renv r fs ctr = .ok out →
        out.header = "Ergebnisse: Automatische Segmentierung") := by
  obtain ⟨r0, st, hp, ha1⟩ := runHandler_ok_elim env pt tp bt tt bbox a a1 h
  subst ha1
  have hrr : r0 = r := by simpa using hr
  subst hrr
  constructor
  · intro hpt
    subst hpt
    rw [pipelineRun_eq_ok_text env _ tp bt tt bbox a.pipe r0 st (by decide)] at hp
    obtain ⟨-, -, -, -, -, -, -, hrec⟩ := hp
    subst hrec
    have hgt : (("Text-Prompt Suche" : String) == "Text-Prompt Suche") = true := by decide
    have hv : headerNameOf (textRecordOf env "Text-Prompt Suche" tp a.pipe.ctr)
        = .ok tp := by
      simp [headerNameOf, textRecordOf, dictGet, hgt]
    constructor
    · simp [resultsHeader, hv, Except.map]
    · intro renv fs ctr out hout
      refine ⟨"Ergebnisse: ", "", ?_⟩
      rw [String.append_empty]
      exact renderResultsPanel_ok_header renv _ fs ctr out tp hv hout
  · intro hpt
    subst hpt
    rw [pipelineRun_eq_ok_auto env _ tp bt tt bbox a.pipe r0 st (by decide)] at hp
    obtain ⟨-, -, -, -, -, -, -, hrec⟩ := hp
    subst hrec
    have hgf : (("Automatische Segmentierung" : String) == "Text-Prompt Suche") = false := by
      decide
    have hv : headerNameOf (autoRecordOf env "Automatische Segmentierung")
        = .ok "Automatische Segmentierung" := by
      simp [headerNameOf, autoRecordOf, hgf]
    have happ : ("Ergebnisse: " ++ "Automatische Segmentierung" : String)
        = "Ergebnisse: Automatische Segmentierung" := by decide
    constructor
    · simp [resultsHeader, hv, Except.map, happ]
    · intro renv fs ctr out hout
      rw [← happ]
      exact renderResultsPanel_ok_header renv _ fs ctr out _ hv hout

/-- Witness for C7 at a concrete input: the text-prompt run with prompt
`"tree"` yields the header `"Ergebnisse: tree"`, which contains `"tree"`. -/
theorem results_header_names_mode_witness :
    runTextW = (Except.ok (), appTextW) ∧
    appTextW.sess.results = some recTextW ∧
    resultsHeader recTextW = Except.ok ("Ergebnisse: " ++ "tree") := by
  refine ⟨by rfl, by rfl, ?_⟩
  exact ((results_header_names_mode envAll "Text-Prompt Suche" "tree" (24/100) (24/100)
    bbox0 app0 appTextW recTextW (by rfl) (by rfl)).1 rfl).1

/-- C9: rendering the Results panel on a record produced by either run branch
never raises a missing-key error — the guarded accesses to
`results['text_prompt']` and `results['sam']` only touch keys the record
contains, so any rendering failure is a missing file, never a `KeyError`. -/
theorem render_no_missing_key (env : Env) (pt tp : String) (bt tt : ℚ)
    (bbox : List ℚ) (a a1 : AppState) (r : ResultsRecord)
    (renv : RenderEnv) (fs : Finset String) (ctr : Nat)
    (h : runHandler env pt tp bt tt bbox a = (.ok (), a1))
    (hr : a1.sess.results = some r) :
    ∀ e k, renderResultsPanel renv r fs ctr = .error e → e ≠ PyError.keyError k := by
  intro e k herr
  obtain ⟨r0, st, hp, ha1⟩ := runHandler_ok_elim env pt tp bt tt bbox a a1 h
  subst ha1
  have hrr : r0 = r := by simpa using hr
  subst hrr
  by_cases hpt : (pt == "Automatische Segmentierung") = true
  · rw [pipelineRun_eq_ok_auto env pt tp bt tt bbox a.pipe r0 st hpt] at hp
    obtain ⟨-, -, -, -, -, -, -, hrec⟩ := hp
    subst hrec
    have hpteq : pt = "Automatische Segmentierung" := eq_of_beq hpt
    subst hpteq
    have hgf : (("Automatische Segmentierung" : String) == "Text-Prompt Suche") = false := by
      decide
    have hv : headerNameOf (autoRecordOf env "Automatische Segmentierung")
        = .ok "Automatische Segmentierung" := by
      simp [headerNameOf, autoRecordOf, hgf]
    have hvec : vectorizeHandle (autoRecordOf env "Automatische Segmentierung") ctr
        = .ok ({ id := ctr, kind := ModelKind.samGeo SamArgs.defaults }, ctr + 1) := by
      simp [vectorizeHandle, autoRecordOf, hgf]
    obtain ⟨pth, hpth⟩ := renderResultsPanel_error_shape renv _ fs ctr e _ _ hv hvec herr
    subst hpth
    intro hcontra
    exact PyError.noConfusion hcontra
  · have hpt' : (pt == "Automatische Segmentierung") = false := by simpa using hpt
    rw [pipelineRun_eq_ok_text env pt tp bt tt bbox a.pipe r0 st hpt'] at hp
    obtain ⟨-, -, -, -, -, -, -, hrec⟩ := hp
    subst hrec
    obtain ⟨v, hv⟩ := headerNameOf_textRecord env pt tp a.pipe.ctr
    obtain ⟨p, hvec⟩ := vectorizeHandle_textRecord env pt tp a.pipe.ctr ctr
    obtain ⟨pth, hpth⟩ := renderResultsPanel_error_shape renv _ fs ctr e v p hv hvec herr
    subst hpth
    intro hcontra
    exact PyError.noConfusion hcontra

/-- Witness for C9 at a concrete input: rendering the text-prompt run's
record never yields the `KeyError` for the `'sam'` key. -/
theorem render_no_missing_key_witness :
    renderResultsPanel renvW recTextW appTextW.pipe.fs appTextW.pipe.ctr
      ≠ Except.error (PyError.keyError "sam") := by
  intro hcontra
  exact render_no_missing_key envAll "Text-Prompt Suche" "tree" (24/100) (24/100)
    bbox0 app0 appTextW recTextW renvW appTextW.pipe.fs appTextW.pipe.ctr
    (by rfl) (by rfl) (PyError.keyError "sam") "sam" hcontra rfl

/-- C3 counterexample: with a file present at the tile path and `os.remove`
raising on it, the run-button handler aborts with the `OSError` — the
deletion failure is not ignored, refuting "failures of this deletion are
ignored". -/
theorem cleanup_failure_aborts_run :
    runHandler envRemoveFail "Automatische Segmentierung" "tree" (24/100) (24/100)
      bbox0 appPrev
      = (Except.error PyError.osError, appPrev) := by
  rfl

/-- C3 amended: every invocation removes, before the download, whatever file
exists at each of the three fixed paths; a path with no file is skipped
without error, but an error raised by the removal itself propagates and
aborts the run; and when the removals and the branch's external calls
succeed, the run succeeds from any starting directory, so a second run never
fails because a file already exists at one of these paths. -/
theorem cleanup_before_download_amended (env : Env) (pt tp : String) (bt tt : ℚ)
    (bbox : List ℚ) (a : AppState)
    (hpt : pt = "Automatische Segmentierung" ∨ pt = "Text-Prompt Suche")
    (hrm : ∀ p, env.removeOk p = true)
    (hsteps : env.downloadOk = true ∧ env.samGeoInitOk = true ∧
      env.langSamInitOk = true ∧ env.generateOk = true ∧ env.predictOk = true ∧
      env.renderOk = true ∧ env.saveOk = true) :
    (∃ st1, cleanupStep env a.pipe = .ok () st1 ∧
      tiff_path ∉ st1.fs ∧ mask_path ∉ st1.fs ∧ vector_path ∉ st1.fs ∧
      st1.fs = postCleanupFs a.pipe.fs) ∧
    (∃ a1, runHandler env pt tp bt tt bbox a = (.ok (), a1)) := by
  obtain ⟨hd, hsg, hls, hg, hpd, hrd, hsv⟩ := hsteps
  constructor
  · refine ⟨{ a.pipe with fs := postCleanupFs a.pipe.fs }, ?_, ?_, ?_, ?_, rfl⟩
    · rw [cleanupStep_eq_ok]
      exact ⟨⟨fun _ => hrm _, fun _ => hrm _, fun _ => hrm _⟩, rfl⟩
    · simp [postCleanupFs, Finset.mem_erase]
    · simp [postCleanupFs, Finset.mem_erase]
    · simp [postCleanupFs, Finset.mem_erase]
  · rcases hpt with hpt | hpt <;> subst hpt
    · have hp := (pipelineRun_eq_ok_auto env "Automatische Segmentierung" tp bt tt bbox
        a.pipe (autoRecordOf env "Automatische Segmentierung")
        ({ fs := insert vis_path (insert mask_path (insert tiff_path
             (postCleanupFs a.pipe.fs))),
           ctr := a.pipe.ctr + 1,
           clock := a.pipe.clock + env.downloadTime + env.samGeoInitTime + env.generateTime
                    + env.renderTime + env.saveTime,
           created := a.pipe.created ++ [autoRunHandle a.pipe.ctr] } : PipeState)
        (by decide)).mpr
        ⟨⟨fun _ => hrm _, fun _ => hrm _, fun _ => hrm _⟩, hd, hsg, hg, hrd, hsv, rfl, rfl⟩
      refine ⟨{ sess := { results := some (autoRecordOf env "Automatische Segmentierung"),
                          map_visible := false },
                pipe := { fs := insert vis_path (insert mask_path (insert tiff_path
                            (postCleanupFs a.pipe.fs))),
                          ctr := a.pipe.ctr + 1,
                          clock := a.pipe.clock + env.downloadTime + env.samGeoInitTime
                                   + env.generateTime + env.renderTime + env.saveTime,
                          created := a.pipe.created ++ [autoRunHandle a.pipe.ctr] },
                rerun := true }, ?_⟩
      unfold runHandler
      rw [hp]
    · have hp := (pipelineRun_eq_ok_text env "Text-Prompt Suche" tp bt tt bbox
        a.pipe (textRecordOf env "Text-Prompt Suche" tp a.pipe.ctr)
        ({ fs := insert vis_path (insert mask_path (insert tiff_path
             (postCleanupFs a.pipe.fs))),
           ctr := a.pipe.ctr + 1,
           clock := a.pipe.clock + env.downloadTime + env.langSamInitTime + env.predictTime
                    + env.renderTime + env.saveTime,
           created := a.pipe.created ++ [textRunHandle a.pipe.ctr] } : PipeState)
        (by decide)).mpr
        ⟨⟨fun _ => hrm _, fun _ => hrm _, fun _ => hrm _⟩, hd, hls, hpd, hrd, hsv, rfl, rfl⟩
      refine ⟨{ sess := { results := some (textRecordOf env "Text-Prompt Suche" tp a.pipe.ctr),
                          map_visible := false },
                pipe := { fs := insert vis_path (insert mask_path (insert tiff_path
                            (postCleanupFs a.pipe.fs))),
                          ctr := a.pipe.ctr + 1,
                          clock := a.pipe.clock + env.downloadTime + env.langSamInitTime
                                   + env.predictTime + env.renderTime + env.saveTime,
                          created := a.pipe.created ++ [textRunHandle a.pipe.ctr] },
                rerun := true }, ?_⟩
      unfold runHandler
      rw [hp]

/-- Witness for C3's amended claim at a concrete input: on the all-success
oracle, a run started from a directory full of previous artifacts
succeeds. -/
theorem cleanup_before_download_amended_witness :
    envAll.removeOk "satellite.tif" = true ∧
    runHandler envAll "Automatische Segmentierung" "tree" (24/100) (24/100) bbox0 appPrev
      = (Except.ok (), (runHandler envAll "Automatische Segmentierung" "tree"
          (24/100) (24/100) bbox0 appPrev).2) := by
  refine ⟨rfl, ?_⟩
  obtain ⟨a1, ha1⟩ := (cleanup_before_download_amended envAll "Automatische Segmentierung"
    "tree" (24/100) (24/100) bbox0 appPrev (Or.inl rfl) (fun _ => rfl)
    ⟨rfl, rfl, rfl, rfl, rfl, rfl, rfl⟩).2
  rw [ha1]

end MetaLangSAM
